import Mathlib

/-!
Shallow embedding of `src/main.py` (a FastAPI in-memory todo service).
The store is a `List Todo`; each endpoint handler becomes a pure function
returning the new store together with the handler's outcome.
-/

/-- `class PriorityLevel(IntEnum): LOW = 3; MEDIUM = 2; HIGH = 1`. -/
inductive PriorityLevel where
  | low
  | medium
  | high
deriving DecidableEq, Repr

/-- The `IntEnum` integer encoding of `PriorityLevel`. -/
def PriorityLevel.toInt : PriorityLevel → Int
  | .low => 3
  | .medium => 2
  | .high => 1

/-- `class Todo(TodoBase): todo_id: int` together with the `TodoBase` fields. -/
structure Todo where
  todo_id : Int
  todo_name : String
  todo_description : String
  priority : PriorityLevel
  completed : Bool
deriving DecidableEq, Repr

/-- A raw inbound JSON body for create/update, before pydantic validation:
each field may be absent. -/
structure RawTodoInput where
  todo_name : Option String
  todo_description : Option String
  priority : Option PriorityLevel
  completed : Option Bool
deriving DecidableEq, Repr

/-- A validated `TodoCreate` value (`class TodoCreate(TodoBase): pass`). -/
structure TodoCreate where
  todo_name : String
  todo_description : String
  priority : PriorityLevel
  completed : Bool
deriving DecidableEq, Repr

/-- Pydantic validation of a raw body against `TodoCreate`.
`todo_name` is required with `min_length=2, max_length=150`;
`todo_description` is required with `max_length=300`;
`priority` is required: the source writes `Field(defaul=PriorityLevel.LOW, ...)`
(note the misspelt keyword), so no default is actually installed and pydantic
treats the field as required;
`completed` has `default=False`. -/
def validateTodoCreate (raw : RawTodoInput) : Option TodoCreate :=
  match raw.todo_name, raw.todo_description, raw.priority with
  | some n, some d, some p =>
      if 2 ≤ n.length ∧ n.length ≤ 150 ∧ d.length ≤ 300 then
        some ⟨n, d, p, raw.completed.getD false⟩
      else
        none
  | _, _, _ => none

/-- A validated `TodoUpdate` patch: `class TodoUpdate(TodoBase)` redefines every
field as `Optional[...] = None`. -/
structure TodoUpdate where
  todo_name : Option String
  todo_description : Option String
  priority : Option PriorityLevel
  completed : Option Bool
deriving DecidableEq, Repr

/-- Pydantic validation of a raw body against `TodoUpdate`: the subclass
redefinitions drop the `Field` length constraints of `TodoBase`, so every
type-correct body is accepted as-is. -/
def validateTodoUpdate (raw : RawTodoInput) : Option TodoUpdate :=
  some ⟨raw.todo_name, raw.todo_description, raw.priority, raw.completed⟩

/-- `HTTPException(status_code=..., detail=...)`. -/
structure HttpError where
  status : Nat
  detail : String
deriving DecidableEq, Repr

/-- The module-level seed list `all_todos`. -/
def all_todos : List Todo :=
  [ ⟨1, "Buy groceries", "Milk, Bread, Eggs", .medium, false⟩,
    ⟨2, "Read a book", "Finish reading \x27The Great Gatsby\x27", .low, false⟩,
    ⟨3, "Sports", "Play football", .high, true⟩,
    ⟨4, "Workout", "Go to the gym for a workout session", .high, false⟩,
    ⟨5, "Call Mom", "Catch up with Mom over the phone", .medium, false⟩ ]

/-- `get_todo(todo_id)`: linear scan returning the first record whose
`todo_id` matches, else `HTTPException(404, "Todo not found")`. -/
def getTodo (todo_id : Int) : List Todo → Except HttpError Todo
  | [] => .error ⟨404, "Todo not found"⟩
  | t :: rest => if t.todo_id = todo_id then .ok t else getTodo todo_id rest

/-- Python `all_todos[:first_n]`: for nonnegative `n` the first `n` elements
(clamped); for negative `n` everything but the last `|n|` elements (clamped). -/
def pySliceTo (xs : List Todo) (n : Int) : List Todo :=
  if 0 ≤ n then xs.take n.toNat
  else xs.take (xs.length - (-n).toNat)

/-- `get_todo(first_n)` (the list endpoint): `if first_n: return
all_todos[:first_n] else: return all_todos`. -/
def listTodos (first_n : Int) (store : List Todo) : List Todo :=
  if first_n ≠ 0 then pySliceTo store first_n else store

/-- `max(todo.todo_id for todo in all_todos)`; `none` models the `ValueError`
Python raises for an empty sequence. -/
def maxId (store : List Todo) : Option Int :=
  match store with
  | [] => none
  | t :: rest => some (rest.foldl (fun m u => max m u.todo_id) t.todo_id)

/-- Outcome of the `create_todo` handler, which never returns normally:
it either raises `HTTPException(201)` after appending, or `max()` raises
`ValueError` on an empty store. -/
inductive CreateOutcome where
  | raised (e : HttpError)
  | valueError
deriving DecidableEq, Repr

/-- Store and outcome after `create_todo`. -/
structure CreateResult where
  store : List Todo
  outcome : CreateOutcome
deriving DecidableEq, Repr

/-- The `Todo(todo_id=new_todo_id, ...)` record `create_todo` constructs. -/
def builtTodo (todo : TodoCreate) (new_todo_id : Int) : Todo :=
  ⟨new_todo_id, todo.todo_name, todo.todo_description, todo.priority, todo.completed⟩

/-- `create_todo(todo)`: computes `max(existing ids) + 1` (ValueError when the
store is empty), appends the constructed record, then raises
`HTTPException(201, "Todo created successfully")`. -/
def createTodo (todo : TodoCreate) (store : List Todo) : CreateResult :=
  match maxId store with
  | none => ⟨store, .valueError⟩
  | some m => ⟨store ++ [builtTodo todo (m + 1)], .raised ⟨201, "Todo created successfully"⟩⟩

/-- Folding `create_todo` over a sequence of inputs. -/
def createMany (inputs : List TodoCreate) (store : List Todo) : List Todo :=
  inputs.foldl (fun s c => (createTodo c s).store) store

/-- The field-merge loop body of `update_todo`: each non-`None` patch field
overwrites the stored field. -/
def applyPatch (patch : TodoUpdate) (t : Todo) : Todo :=
  { t with
    todo_name := patch.todo_name.getD t.todo_name,
    todo_description := patch.todo_description.getD t.todo_description,
    priority := patch.priority.getD t.priority,
    completed := patch.completed.getD t.completed }

/-- Store and outcome after `update_todo`: on success the handler returns
`{"message": "Todo updated successfully", "todo": todo}`, modelled as the
`String × Todo` pair. -/
structure UpdateResult where
  store : List Todo
  result : Except HttpError (String × Todo)
deriving Repr

/-- `update_todo(todo_id, updated_todo)`: finds the first matching record,
overwrites the non-`None` patch fields in place, and returns the message plus
the mutated record; 404 when no record matches. -/
def updateTodo (todo_id : Int) (patch : TodoUpdate) : List Todo → UpdateResult
  | [] => ⟨[], .error ⟨404, "Todo not found"⟩⟩
  | t :: rest =>
      if t.todo_id = todo_id then
        ⟨applyPatch patch t :: rest, .ok ("Todo updated successfully", applyPatch patch t)⟩
      else
        ⟨t :: (updateTodo todo_id patch rest).store, (updateTodo todo_id patch rest).result⟩

/-- Store and outcome after `delete_todo`. -/
structure DeleteResult where
  store : List Todo
  result : Except HttpError (String × Todo)
deriving Repr

/-- `delete_todo(todo_id)`: pops the first matching record and returns the
message plus the removed record; 404 when no record matches. -/
def deleteTodo (todo_id : Int) : List Todo → DeleteResult
  | [] => ⟨[], .error ⟨404, "Todo not found"⟩⟩
  | t :: rest =>
      if t.todo_id = todo_id then
        ⟨rest, .ok ("Todo deleted successfully", t)⟩
      else
        ⟨t :: (deleteTodo todo_id rest).store, (deleteTodo todo_id rest).result⟩

/-- Pairwise-distinct ids. -/
def idsNodup (store : List Todo) : Prop :=
  (store.map Todo.todo_id).Nodup

/-- The spec's length bounds on a stored record. -/
def boundsOk (t : Todo) : Prop :=
  2 ≤ t.todo_name.length ∧ t.todo_name.length ≤ 150 ∧ t.todo_description.length ≤ 300


/-! ### Helper lemmas -/

lemma foldlMax_le (l : List Todo) (a : Int) :
    a ≤ l.foldl (fun m u => max m u.todo_id) a := by
  induction l generalizing a with
  | nil => simp
  | cons x xs ih => exact le_trans (le_max_left a x.todo_id) (ih _)

lemma mem_le_foldlMax (l : List Todo) :
    ∀ (a : Int) (t : Todo), t ∈ l → t.todo_id ≤ l.foldl (fun m u => max m u.todo_id) a := by
  induction l with
  | nil => intro a t ht; cases ht
  | cons x xs ih =>
    intro a t ht
    rcases List.mem_cons.mp ht with rfl | h
    · exact le_trans (le_max_right a t.todo_id) (foldlMax_le xs _)
    · exact ih _ t h

lemma mem_le_maxId {store : List Todo} {m : Int} (h : maxId store = some m)
    {t : Todo} (ht : t ∈ store) : t.todo_id ≤ m := by
  cases store with
  | nil => cases ht
  | cons x xs =>
    simp only [maxId, Option.some.injEq] at h
    subst h
    rcases List.mem_cons.mp ht with rfl | h2
    · exact foldlMax_le xs _
    · exact mem_le_foldlMax xs _ t h2

lemma createTodo_idsNodup {store : List Todo} (h : idsNodup store) (c : TodoCreate) :
    idsNodup (createTodo c store).store := by
  unfold createTodo
  cases hm : maxId store with
  | none => exact h
  | some m =>
    unfold idsNodup at h ⊢
    simp only [List.map_append, List.map_cons, List.map_nil]
    refine h.append (List.nodup_singleton _) ?_
    intro a ha hb
    simp only [builtTodo, List.mem_singleton] at hb
    subst hb
    rcases List.mem_map.mp ha with ⟨t, ht, hid⟩
    have := mem_le_maxId hm ht
    omega

lemma updateTodo_map_todo_id (i : Int) (p : TodoUpdate) (s : List Todo) :
    (updateTodo i p s).store.map Todo.todo_id = s.map Todo.todo_id := by
  induction s with
  | nil => rfl
  | cons t rest ih =>
    unfold updateTodo
    by_cases h : t.todo_id = i
    · simp [h, applyPatch]
    · simp [h, ih]

lemma deleteTodo_store_sublist (i : Int) (s : List Todo) :
    (deleteTodo i s).store.Sublist s := by
  induction s with
  | nil => simp [deleteTodo]
  | cons t rest ih =>
    unfold deleteTodo
    by_cases h : t.todo_id = i
    · simp [h]
    · simpa [h] using ih.cons₂ t

lemma getTodo_not_found {i : Int} {s : List Todo} (h : ∀ t ∈ s, t.todo_id ≠ i) :
    getTodo i s = .error ⟨404, "Todo not found"⟩ := by
  induction s with
  | nil => rfl
  | cons t rest ih =>
    unfold getTodo
    rw [if_neg (h t (List.mem_cons_self t rest))]
    exact ih fun u hu => h u (List.mem_cons_of_mem t hu)

lemma updateTodo_not_found {i : Int} (p : TodoUpdate) {s : List Todo}
    (h : ∀ t ∈ s, t.todo_id ≠ i) :
    updateTodo i p s = ⟨s, .error ⟨404, "Todo not found"⟩⟩ := by
  induction s with
  | nil => rfl
  | cons t rest ih =>
    unfold updateTodo
    rw [if_neg (h t (List.mem_cons_self t rest))]
    rw [ih fun u hu => h u (List.mem_cons_of_mem t hu)]

lemma deleteTodo_not_found {i : Int} {s : List Todo}
    (h : ∀ t ∈ s, t.todo_id ≠ i) :
    deleteTodo i s = ⟨s, .error ⟨404, "Todo not found"⟩⟩ := by
  induction s with
  | nil => rfl
  | cons t rest ih =>
    unfold deleteTodo
    rw [if_neg (h t (List.mem_cons_self t rest))]
    rw [ih fun u hu => h u (List.mem_cons_of_mem t hu)]

lemma updateTodo_found (i : Int) (p : TodoUpdate) (t : Todo) (mid : List Todo)
    (ht : t.todo_id = i) :
    ∀ pre : List Todo, (∀ u ∈ pre, u.todo_id ≠ i) →
      updateTodo i p (pre ++ t :: mid)
        = ⟨pre ++ applyPatch p t :: mid, .ok ("Todo updated successfully", applyPatch p t)⟩ := by
  intro pre
  induction pre with
  | nil =>
    intro _
    simp only [List.nil_append]
    unfold updateTodo
    rw [if_pos ht]
  | cons x xs ih =>
    intro hpre
    simp only [List.cons_append]
    unfold updateTodo
    rw [if_neg (hpre x (List.mem_cons_self x xs))]
    rw [ih fun u hu => hpre u (List.mem_cons_of_mem x hu)]

lemma deleteTodo_found (i : Int) (t : Todo) (mid : List Todo)
    (ht : t.todo_id = i) :
    ∀ pre : List Todo, (∀ u ∈ pre, u.todo_id ≠ i) →
      deleteTodo i (pre ++ t :: mid)
        = ⟨pre ++ mid, .ok ("Todo deleted successfully", t)⟩ := by
  intro pre
  induction pre with
  | nil =>
    intro _
    simp only [List.nil_append]
    unfold deleteTodo
    rw [if_pos ht]
  | cons x xs ih =>
    intro hpre
    simp only [List.cons_append]
    unfold deleteTodo
    rw [if_neg (hpre x (List.mem_cons_self x xs))]
    rw [ih fun u hu => hpre u (List.mem_cons_of_mem x hu)]

/-! ### Claim theorems -/

/-- C1: on a non-empty store, `create_todo` does assign `1 + max(existing ids)`
(id 6 on the seed store), construct the record from the input plus that id and
append it at the end — but it then raises `HTTPException(201)` instead of
returning the created record, and on an empty store `max()` raises `ValueError`
instead of assigning id 1. -/
theorem C1_create_code_evaluation :
    (createTodo ⟨"Call Dad", "Ring him", .medium, false⟩ all_todos).store
      = all_todos ++ [⟨6, "Call Dad", "Ring him", .medium, false⟩]
    ∧ (createTodo ⟨"Call Dad", "Ring him", .medium, false⟩ all_todos).outcome
      = .raised ⟨201, "Todo created successfully"⟩
    ∧ (createTodo ⟨"Call Dad", "Ring him", .medium, false⟩ []).outcome
      = .valueError := by
  refine ⟨?_, rfl, rfl⟩
  decide

/-- C2: starting from a store with pairwise-distinct ids, any sequence of
creates — and likewise any update or delete — leaves every id in the store
strictly unique. -/
theorem C2_id_uniqueness_invariant (store : List Todo) (inputs : List TodoCreate)
    (i : Int) (p : TodoUpdate) (h : idsNodup store) :
    idsNodup (createMany inputs store)
    ∧ idsNodup (updateTodo i p store).store
    ∧ idsNodup (deleteTodo i store).store := by
  refine ⟨?_, ?_, ?_⟩
  · unfold createMany
    induction inputs generalizing store with
    | nil => exact h
    | cons c cs ih => exact ih _ (createTodo_idsNodup h c)
  · unfold idsNodup
    rw [updateTodo_map_todo_id]
    exact h
  · exact List.Nodup.sublist ((deleteTodo_store_sublist i store).map Todo.todo_id) h

/-- C2 witness: the invariant instantiated on the seed store with one create,
one update and one delete. -/
theorem C2_id_uniqueness_witness :
    idsNodup (createMany [⟨"Call Dad", "Ring him", .medium, false⟩] all_todos)
    ∧ idsNodup (updateTodo 2 ⟨none, none, none, some true⟩ all_todos).store
    ∧ idsNodup (deleteTodo 2 all_todos).store :=
  C2_id_uniqueness_invariant all_todos [⟨"Call Dad", "Ring him", .medium, false⟩]
    2 ⟨none, none, none, some true⟩ (by unfold idsNodup; decide)

/-- C3: the `IntEnum` encoding is HIGH=1, MEDIUM=2, LOW=3, but a create body
omitting `priority` is rejected rather than defaulted to LOW: the source spells
the keyword `defaul=` in `Field(defaul=PriorityLevel.LOW, ...)`, so pydantic
installs no default and treats the field as required. -/
theorem C3_priority_not_defaulted :
    PriorityLevel.toInt .high = 1
    ∧ PriorityLevel.toInt .medium = 2
    ∧ PriorityLevel.toInt .low = 3
    ∧ validateTodoCreate ⟨some "Call Dad", some "Ring him", none, none⟩ = none
    ∧ validateTodoCreate ⟨some "Call Dad", some "Ring him", some .medium, none⟩
        = some ⟨"Call Dad", "Ring him", .medium, false⟩ := by
  refine ⟨rfl, rfl, rfl, rfl, ?_⟩
  decide

/-- C4 counterexample: `TodoUpdate` redefines its fields without the `Field`
length constraints, so the patch `{todo_name: "x"}` (length 1 < 2) is accepted
by the input value object and stores a Todo violating the name bound. -/
theorem C4_update_bounds_counterexample :
    validateTodoUpdate ⟨some "x", none, none, none⟩ = some ⟨some "x", none, none, none⟩
    ∧ "x".length < 2
    ∧ ∃ t ∈ (updateTodo 1 ⟨some "x", none, none, none⟩ all_todos).store,
        t.todo_name.length < 2 := by
  refine ⟨rfl, by decide, ?_⟩
  decide

/-- C4 amended: every create input accepted by `TodoCreate` satisfies the
length bounds, and `create_todo` preserves store-wide bounds; update patches,
however, are not length-checked (see the counterexample). -/
theorem C4_create_bounds (raw : RawTodoInput) (c : TodoCreate) (store : List Todo)
    (h : validateTodoCreate raw = some c) (hs : ∀ t ∈ store, boundsOk t) :
    (2 ≤ c.todo_name.length ∧ c.todo_name.length ≤ 150 ∧ c.todo_description.length ≤ 300)
    ∧ ∀ t ∈ (createTodo c store).store, boundsOk t := by
  have hb : 2 ≤ c.todo_name.length ∧ c.todo_name.length ≤ 150
      ∧ c.todo_description.length ≤ 300 := by
    unfold validateTodoCreate at h
    rcases raw with ⟨n, d, p, b⟩
    cases n with
    | none => cases h
    | some n =>
      cases d with
      | none => cases h
      | some d =>
        cases p with
        | none => cases h
        | some p =>
          simp only at h
          by_cases hcond : 2 ≤ n.length ∧ n.length ≤ 150 ∧ d.length ≤ 300
          · rw [if_pos hcond] at h
            cases h
            exact hcond
          · rw [if_neg hcond] at h
            cases h
  refine ⟨hb, ?_⟩
  unfold createTodo
  cases maxId store with
  | none => exact hs
  | some m =>
    intro t ht
    rcases List.mem_append.mp ht with h1 | h1
    · exact hs t h1
    · rcases List.mem_singleton.mp h1 with rfl
      exact hb

/-- C4 witness: the create-side bounds at a concrete accepted input and the
empty store. -/
theorem C4_create_bounds_witness :
    (2 ≤ ("Call Dad" : String).length ∧ ("Call Dad" : String).length ≤ 150
      ∧ ("Ring him" : String).length ≤ 300)
    ∧ ∀ t ∈ (createTodo ⟨"Call Dad", "Ring him", .medium, false⟩ []).store, boundsOk t :=
  C4_create_bounds ⟨some "Call Dad", some "Ring him", some .medium, none⟩
    ⟨"Call Dad", "Ring him", .medium, false⟩ [] (by decide)
    (fun t ht => absurd ht (List.not_mem_nil t))

/-- C5: when no record carries the requested id, `get_todo`, `update_todo` and
`delete_todo` each fail with `HTTPException(404, "Todo not found")` and leave
the store unchanged. -/
theorem C5_not_found_no_mutation (i : Int) (store : List Todo) (p : TodoUpdate)
    (h : ∀ t ∈ store, t.todo_id ≠ i) :
    getTodo i store = .error ⟨404, "Todo not found"⟩
    ∧ (updateTodo i p store).store = store
    ∧ (updateTodo i p store).result = .error ⟨404, "Todo not found"⟩
    ∧ (deleteTodo i store).store = store
    ∧ (deleteTodo i store).result = .error ⟨404, "Todo not found"⟩ := by
  have hu := updateTodo_not_found p h
  have hd := deleteTodo_not_found h
  exact ⟨getTodo_not_found h, by rw [hu], by rw [hu], by rw [hd], by rw [hd]⟩

/-- C5 witness: id 99 is absent from the seed store. -/
theorem C5_not_found_witness :
    getTodo 99 all_todos = .error ⟨404, "Todo not found"⟩
    ∧ (updateTodo 99 ⟨none, none, none, none⟩ all_todos).store = all_todos
    ∧ (updateTodo 99 ⟨none, none, none, none⟩ all_todos).result
        = .error ⟨404, "Todo not found"⟩
    ∧ (deleteTodo 99 all_todos).store = all_todos
    ∧ (deleteTodo 99 all_todos).result = .error ⟨404, "Todo not found"⟩ :=
  C5_not_found_no_mutation 99 all_todos ⟨none, none, none, none⟩ (by decide)

/-- C6: `update_todo` rewrites exactly the non-`None` patch fields of the first
record matching the id, keeps its id and its other fields, keeps every other
record and the order untouched, and returns the mutated record (next to the
confirmation message); the all-`None` patch is a no-op on the record. -/
theorem C6_update_overwrites_patch_fields_only (i : Int) (p : TodoUpdate)
    (pre mid : List Todo) (t : Todo)
    (hpre : ∀ u ∈ pre, u.todo_id ≠ i) (ht : t.todo_id = i) :
    (updateTodo i p (pre ++ t :: mid)).store = pre ++ applyPatch p t :: mid
    ∧ (updateTodo i p (pre ++ t :: mid)).result
        = .ok ("Todo updated successfully", applyPatch p t)
    ∧ (applyPatch p t).todo_name = p.todo_name.getD t.todo_name
    ∧ (applyPatch p t).todo_description = p.todo_description.getD t.todo_description
    ∧ (applyPatch p t).priority = p.priority.getD t.priority
    ∧ (applyPatch p t).completed = p.completed.getD t.completed
    ∧ (applyPatch p t).todo_id = t.todo_id
    ∧ applyPatch ⟨none, none, none, none⟩ t = t := by
  have h := updateTodo_found i p t mid ht pre hpre
  exact ⟨by rw [h], by rw [h], rfl, rfl, rfl, rfl, rfl, rfl⟩

/-- C6 witness: patching only the description of the first seed record. -/
theorem C6_update_witness :
    (updateTodo 1 ⟨none, some "Oat milk", none, none⟩ all_todos).store
      = ⟨1, "Buy groceries", "Oat milk", .medium, false⟩ :: all_todos.tail
    ∧ (updateTodo 1 ⟨none, some "Oat milk", none, none⟩ all_todos).result
      = .ok ("Todo updated successfully", ⟨1, "Buy groceries", "Oat milk", .medium, false⟩) :=
  ⟨(C6_update_overwrites_patch_fields_only 1 ⟨none, some "Oat milk", none, none⟩
      [] all_todos.tail ⟨1, "Buy groceries", "Milk, Bread, Eggs", .medium, false⟩
      (fun u hu => absurd hu (List.not_mem_nil u)) rfl).1,
   (C6_update_overwrites_patch_fields_only 1 ⟨none, some "Oat milk", none, none⟩
      [] all_todos.tail ⟨1, "Buy groceries", "Milk, Bread, Eggs", .medium, false⟩
      (fun u hu => absurd hu (List.not_mem_nil u)) rfl).2.1⟩

/-- C7: after a create on the seed store, `get_todo` with the newly assigned
id 6 does return the constructed record — but `create_todo` itself raised
`HTTPException(201)` rather than returning that record, so "the record create
returned" never exists. -/
theorem C7_get_after_create :
    getTodo 6 (createTodo ⟨"Water plants", "Front porch", .low, true⟩ all_todos).store
      = .ok ⟨6, "Water plants", "Front porch", .low, true⟩
    ∧ (createTodo ⟨"Water plants", "Front porch", .low, true⟩ all_todos).outcome
      = .raised ⟨201, "Todo created successfully"⟩ := by
  exact ⟨rfl, rfl⟩

/-- C8 counterexample: `first_n = 0` is falsy, so the handler returns the whole
seed store (5 records), not `min(0, size) = 0` records. -/
theorem C8_zero_counterexample :
    listTodos 0 all_todos = all_todos
    ∧ (listTodos 0 all_todos).length ≠ min (Int.toNat 0) all_todos.length := by
  constructor
  · rfl
  · decide

/-- C8 amended: for every `n ≥ 1` the handler returns the first
`min(n, collection size)` records in storage order (the whole collection, with
no error, when `n` is at least the size), while `n = 0` returns the entire
collection. -/
theorem C8_list_first_n (n : Int) (store : List Todo) (h : 1 ≤ n) :
    listTodos n store = store.take n.toNat
    ∧ (listTodos n store).length = min n.toNat store.length
    ∧ (store.length ≤ n.toNat → listTodos n store = store)
    ∧ listTodos 0 store = store := by
  have hne : n ≠ 0 := by omega
  have hnn : (0 : Int) ≤ n := by omega
  have h1 : listTodos n store = store.take n.toNat := by
    unfold listTodos pySliceTo
    rw [if_pos hne, if_pos hnn]
  refine ⟨h1, ?_, ?_, ?_⟩
  · rw [h1]
    exact List.length_take ..
  · intro hle
    rw [h1]
    exact List.take_of_length_le hle
  · simp [listTodos]

/-- C8 witness: `n = 7` on the 5-record seed store. -/
theorem C8_list_first_n_witness :
    listTodos 7 all_todos = all_todos.take (Int.toNat 7)
    ∧ (listTodos 7 all_todos).length = min (Int.toNat 7) all_todos.length
    ∧ (all_todos.length ≤ Int.toNat 7 → listTodos 7 all_todos = all_todos)
    ∧ listTodos 0 all_todos = all_todos :=
  C8_list_first_n 7 all_todos (by decide)

/-- C9: deleting a present id removes exactly that one record, returns it
(next to the confirmation message), keeps the remaining records in their
relative order, and a subsequent `get_todo` on that id fails with 404. -/
theorem C9_delete_removes_one (i : Int) (pre mid : List Todo) (t : Todo)
    (hpre : ∀ u ∈ pre, u.todo_id ≠ i) (ht : t.todo_id = i)
    (hmid : ∀ u ∈ mid, u.todo_id ≠ i) :
    (deleteTodo i (pre ++ t :: mid)).store = pre ++ mid
    ∧ (deleteTodo i (pre ++ t :: mid)).store.length + 1 = (pre ++ t :: mid).length
    ∧ (deleteTodo i (pre ++ t :: mid)).result = .ok ("Todo deleted successfully", t)
    ∧ getTodo i (pre ++ mid) = .error ⟨404, "Todo not found"⟩ := by
  have hd := deleteTodo_found i t mid ht pre hpre
  have hg : getTodo i (pre ++ mid) = .error ⟨404, "Todo not found"⟩ := by
    refine getTodo_not_found ?_
    intro u hu
    rcases List.mem_append.mp hu with h1 | h1
    · exact hpre u h1
    · exact hmid u h1
  refine ⟨by rw [hd], ?_, by rw [hd], hg⟩
  rw [hd]
  simp only [List.length_append, List.length_cons]
  omega

/-- C9 witness: deleting id 3 ("Sports") from the seed store. -/
theorem C9_delete_witness :
    (deleteTodo 3 all_todos).store = all_todos.take 2 ++ all_todos.drop 3
    ∧ (deleteTodo 3 all_todos).store.length + 1 = all_todos.length
    ∧ (deleteTodo 3 all_todos).result
        = .ok ("Todo deleted successfully", ⟨3, "Sports", "Play football", .high, true⟩)
    ∧ getTodo 3 (all_todos.take 2 ++ all_todos.drop 3) = .error ⟨404, "Todo not found"⟩ :=
  C9_delete_removes_one 3 (all_todos.take 2) (all_todos.drop 3)
    ⟨3, "Sports", "Play football", .high, true⟩ (by decide) rfl (by decide)

/-- C10: for negative `n` the list handler raises nothing and follows Python
slice semantics: it returns the collection with its last `|n|` records removed,
and the empty list when `|n|` is at least the collection size. -/
theorem C10_negative_first_n (n : Int) (store : List Todo) (h : n < 0) :
    listTodos n store = store.take (store.length - n.natAbs)
    ∧ (store.length ≤ n.natAbs → listTodos n store = []) := by
  have hne : n ≠ 0 := by omega
  have hnn : ¬ (0 : Int) ≤ n := by omega
  have habs : (-n).toNat = n.natAbs := by omega
  have h1 : listTodos n store = store.take (store.length - n.natAbs) := by
    unfold listTodos pySliceTo
    rw [if_pos hne, if_neg hnn, habs]
  refine ⟨h1, ?_⟩
  intro hle
  rw [h1]
  have : store.length - n.natAbs = 0 := by omega
  rw [this]
  exact List.take_zero ..

/-- C10 witness: `n = -2` keeps the first three seed records; `n = -9` would
keep none. -/
theorem C10_negative_first_n_witness :
    listTodos (-2) all_todos = all_todos.take (all_todos.length - Int.natAbs (-2))
    ∧ (all_todos.length ≤ Int.natAbs (-2) → listTodos (-2) all_todos = []) :=
  C10_negative_first_n (-2) all_todos (by decide)
